import Mathlib

/-!
Shallow embedding of `src/main.py` (Prova-RPA weather pipeline).

The Python runtime values flowing through the program (parsed JSON payloads,
the structured record, SQLite cell values) are modelled by the inductive type
`Py`. Python exceptions that the program can raise are modelled by `PyErr`
and fallible code returns `Except PyErr _`. Impure inputs are made explicit:
the wall clock (`datetime.now().strftime(...)`) is a `String` argument, and
the network is a function `http : String → HttpResult` from the request URL
to the outcome of `requests.get`.
-/

/-- A Python/JSON runtime value. `float` carries a rational (the payloads in
scope hold only decimal literals, so no floating-point rounding is involved). -/
inductive Py where
  | none
  | bool (b : Bool)
  | int (n : Int)
  | float (q : ℚ)
  | str (s : String)
  | list (xs : List Py)
  | dict (kvs : List (String × Py))

/-- The Python exceptions the embedded program can raise. `integrityError`
stands for `sqlite3.IntegrityError` (a `sqlite3.Error`), raised by SQLite on a
NOT NULL constraint violation; `programmingError` for
`sqlite3.ProgrammingError` (also a `sqlite3.Error`), raised by the driver when
an SQL parameter is bound to an unsupported type such as a list or a dict. -/
inductive PyErr where
  | attributeError
  | indexError
  | typeError
  | keyError
  | valueError
  | integrityError
  | programmingError
deriving DecidableEq

/-- Whether an exception is a `sqlite3.Error` — the storage-error family the
`except sqlite3.Error` handler in `main` catches. -/
def isStorageErr : PyErr → Bool
  | .integrityError => true
  | .programmingError => true
  | _ => false

/-- First match wins, as in a Python dict lookup (keys are unique in dicts
produced by JSON parsing, so the convention is immaterial there). -/
def lookupKey : List (String × Py) → String → Option Py
  | [], _ => Option.none
  | (k, v) :: rest, key => if k = key then Option.some v else lookupKey rest key

/-- Python `v.get(key, default)`: only dicts have a `.get` method, any other
receiver raises `AttributeError`. A stored value of `None` is returned as is
(the default applies only when the key is absent). -/
def pyGet (v : Py) (key : String) (default : Py) : Except PyErr Py :=
  match v with
  | .dict kvs => .ok ((lookupKey kvs key).getD default)
  | _ => .error .attributeError

/-- Python `v[0]`: empty list/string raises `IndexError`, a dict with string
keys raises `KeyError` for the key `0`, other receivers raise `TypeError`. -/
def pyIndex0 (v : Py) : Except PyErr Py :=
  match v with
  | .list [] => .error .indexError
  | .list (x :: _) => .ok x
  | .str s =>
      match s.data with
      | [] => .error .indexError
      | c :: _ => .ok (.str (String.mk [c]))
  | .dict _ => .error .keyError
  | _ => .error .typeError

/-- Python truthiness, as used by `if dados_raw:` in `main`. -/
def truthy : Py → Bool
  | .none => false
  | .bool b => b
  | .int n => n ≠ 0
  | .float q => q ≠ 0
  | .str s => s ≠ ""
  | .list xs => !xs.isEmpty
  | .dict kvs => !kvs.isEmpty

/-- Python `str(v)` as used inside the program's f-strings. Containers are
rendered by a placeholder: the program's diagnostics only ever format scalar
values in the claims under study, so the container rendering is never relied
upon by a theorem. -/
def pyToString : Py → String
  | .none => "None"
  | .bool true => "True"
  | .bool false => "False"
  | .int n => toString n
  | .float q => toString q
  | .str s => s
  | .list _ => "<list>"
  | .dict _ => "<dict>"

/-- The constant embedded by `carregar_configuracoes` in `src/main.py`. -/
def api_key_const : String := "3a5eb8cc097c4eb15bf47deb31c0f8a6"

/-- `carregar_configuracoes`: raises `ValueError` when the key is empty,
otherwise returns it. -/
def carregar_configuracoes : Except PyErr String :=
  if api_key_const = "" then .error .valueError else .ok api_key_const

/-- The URL built by the f-string on line 45 of `src/main.py`: the raw city
name and key are interpolated into the template with no percent-encoding. -/
def buildUrl (cidade api_key : String) : String :=
  "https://api.openweathermap.org/data/2.5/weather?q=" ++ cidade ++
    "&appid=" ++ api_key ++ "&units=metric&lang=pt_br"

/-- Outcome of `requests.get(url, timeout=10)`: an HTTP response whose body
parses to the JSON value `body`, a `requests.exceptions.Timeout`, or another
`requests.exceptions.RequestException` carrying a message. -/
inductive HttpResult where
  | response (status : Nat) (body : Py)
  | timeout
  | transportError (msg : String)

/-- `obter_dados_clima`: performs the GET on `buildUrl cidade api_key` and
maps the outcome. On status 200 the parsed body is returned. On any other
status the code evaluates `response.json().get('message', 'Erro desconhecido')`
— a `.get` call that raises `AttributeError` when the error body is not a JSON
object; that exception is not a `RequestException`, so it escapes the
`try/except`. The returned pair is (result, console lines printed). -/
def obter_dados_clima (cidade api_key : String) (http : String → HttpResult) :
    Except PyErr (Option Py × List String) :=
  let reqLine := "Realizando requisição para a cidade: " ++ cidade ++ "..."
  match http (buildUrl cidade api_key) with
  | .response status body =>
      if status = 200 then
        .ok (Option.some body,
          [reqLine, "✓ Dados obtidos com sucesso! (Status: " ++ toString status ++ ")"])
      else
        match pyGet body "message" (Py.str "Erro desconhecido") with
        | .ok msg =>
            .ok (Option.none,
              [reqLine, "✗ Erro na requisição: " ++ toString status,
               "Mensagem: " ++ pyToString msg])
        | .error e => .error e
  | .timeout => .ok (Option.none, [reqLine, "✗ Erro: Timeout na requisição"])
  | .transportError m =>
      .ok (Option.none, [reqLine, "✗ Erro na requisição: " ++ toString m])

/-- The structured record built by `estruturar_dados`: one field per key of
the Python dict literal, each holding a Python value (possibly `Py.none`). -/
structure Record where
  cidade : Py
  pais : Py
  temperatura : Py
  sensacao_termica : Py
  temp_minima : Py
  temp_maxima : Py
  pressao : Py
  umidade : Py
  descricao : Py
  velocidade_vento : Py
  nuvens : Py
  data_hora : Py
  timestamp_api : Py

/-- The Python expression `dados_raw.get(k1, {}).get(k2)`: a two-level
defaulting chain (missing intermediate object defaults to `{}`, missing leaf
to `None`). -/
def getChain2 (p : Py) (k1 k2 : String) : Except PyErr Py := do
  let s ← pyGet p k1 (Py.dict [])
  pyGet s k2 Py.none

/-- The Python expression `dados_raw.get('weather', [{}])[0].get('description')`
(line 86). -/
def getDescChain (p : Py) : Except PyErr Py := do
  let w ← pyGet p "weather" (Py.list [Py.dict []])
  let w0 ← pyIndex0 w
  pyGet w0 "description" Py.none

/-- `estruturar_dados`: the dict literal of lines 77-91, with each value
expression translated in evaluation order. `now` is the string produced by
`datetime.now().strftime('%Y-%m-%d %H:%M:%S')`. Each field recomputes its own
defaulting chain, exactly as each line of the source does. -/
def estruturar_dados (dados_raw : Py) (now : String) : Except PyErr Record := do
  let cidade ← pyGet dados_raw "name" Py.none
  let pais ← getChain2 dados_raw "sys" "country"
  let temperatura ← getChain2 dados_raw "main" "temp"
  let sensacao_termica ← getChain2 dados_raw "main" "feels_like"
  let temp_minima ← getChain2 dados_raw "main" "temp_min"
  let temp_maxima ← getChain2 dados_raw "main" "temp_max"
  let pressao ← getChain2 dados_raw "main" "pressure"
  let umidade ← getChain2 dados_raw "main" "humidity"
  let descricao ← getDescChain dados_raw
  let velocidade_vento ← getChain2 dados_raw "wind" "speed"
  let nuvens ← getChain2 dados_raw "clouds" "all"
  let timestamp_api ← pyGet dados_raw "dt" Py.none
  .ok { cidade := cidade, pais := pais, temperatura := temperatura,
        sensacao_termica := sensacao_termica, temp_minima := temp_minima,
        temp_maxima := temp_maxima, pressao := pressao, umidade := umidade,
        descricao := descricao, velocidade_vento := velocidade_vento,
        nuvens := nuvens, data_hora := Py.str now,
        timestamp_api := timestamp_api }

/-- The column list of the `CREATE TABLE IF NOT EXISTS dados_clima` statement
(lines 99-116 of `src/main.py`), as (column name, declared type) pairs. -/
def dadosClimaSchema : List (String × String) :=
  [("id", "INTEGER PRIMARY KEY AUTOINCREMENT"),
   ("cidade", "TEXT NOT NULL"),
   ("pais", "TEXT"),
   ("temperatura", "REAL"),
   ("sensacao_termica", "REAL"),
   ("temp_minima", "REAL"),
   ("temp_maxima", "REAL"),
   ("pressao", "INTEGER"),
   ("umidade", "INTEGER"),
   ("descricao", "TEXT"),
   ("velocidade_vento", "REAL"),
   ("nuvens", "INTEGER"),
   ("data_hora", "TEXT"),
   ("timestamp_api", "INTEGER")]

/-- State of the backing file `projeto_rpa.db`: either no `dados_clima` table
yet, or one table with its schema and its rows in insertion order (the
AUTOINCREMENT `id` column is represented by list position: later = larger id).
SQLite holds at most one table per name, so one `Option` suffices. -/
structure DbState where
  table : Option (List (String × String) × List Record)

/-- `criar_banco_dados`: `CREATE TABLE IF NOT EXISTS` creates the table with
the fixed schema when absent and leaves the file untouched when present. -/
def criar_banco_dados (s : DbState) : DbState :=
  match s.table with
  | Option.some _ => s
  | Option.none => ⟨Option.some (dadosClimaSchema, [])⟩

/-- Whether the sqlite3 driver can bind a value as an SQL parameter: `None`,
booleans (int subclass), ints, floats and strings are supported, while a list
or dict value raises `sqlite3.ProgrammingError`. -/
def bindable : Py → Bool
  | .list _ => false
  | .dict _ => false
  | _ => true

/-- All thirteen values bound by the INSERT of `inserir_dados_banco` are
driver-bindable. -/
def recordBindable (r : Record) : Bool :=
  bindable r.cidade && bindable r.pais && bindable r.temperatura &&
  bindable r.sensacao_termica && bindable r.temp_minima &&
  bindable r.temp_maxima && bindable r.pressao && bindable r.umidade &&
  bindable r.descricao && bindable r.velocidade_vento && bindable r.nuvens &&
  bindable r.data_hora && bindable r.timestamp_api

/-- `inserir_dados_banco`: the parameterized INSERT appends one row. The
driver first binds the 13 parameters — a list- or dict-valued parameter is
not a supported SQLite type and raises `sqlite3.ProgrammingError` with no row
written, before any constraint is checked. The only schema constraint is then
`cidade TEXT NOT NULL` (SQLite column types are affinities, not checks), so
binding `None` for `cidade` raises `sqlite3.IntegrityError` and inserts
nothing; any other record is appended and committed immediately. -/
def inserir_dados_banco (rows : List Record) (dados : Record) :
    Except PyErr (List Record) :=
  if recordBindable dados then
    match dados.cidade with
    | Py.none => .error .integrityError
    | _ => .ok (rows ++ [dados])
  else .error .programmingError

/-- `exibir_dados_formatados`: every field is formatted through an f-string,
which accepts any value, except `dados['descricao'].capitalize()` — a method
call that raises `AttributeError` unless `descricao` is a string. -/
def exibir_dados_formatados (dados : Record) : Except PyErr Unit :=
  match dados.descricao with
  | Py.str _ => .ok ()
  | _ => .error .attributeError

/-- The projection in the SELECT of `consultar_dados_banco`:
`cidade, temperatura, descricao, data_hora`. -/
def consultaProj (r : Record) : Py × Py × Py × Py :=
  (r.cidade, r.temperatura, r.descricao, r.data_hora)

/-- `consultar_dados_banco`: `SELECT ... ORDER BY id DESC LIMIT ?`. Ordering
descending by `id` reverses insertion order; SQLite treats a negative LIMIT
as no limit. Never an error. -/
def consultar_dados_banco (rows : List Record) (limite : Int) :
    List (Py × Py × Py × Py) :=
  let desc := rows.reverse
  (if limite < 0 then desc else desc.take limite.toNat).map consultaProj

/-- The city list hard-coded in `main` (line 214). -/
def cidades : List String := ["London", "Sao Paulo", "New York", "Tokyo", "Paris"]

/-- One iteration of the `for cidade in cidades` loop in `main`: fetch, then
— only when `dados_raw` is truthy (`if dados_raw:` is Python truthiness, so a
`None` result and an empty-dict payload are both skipped) — structure,
display, and insert. Any exception propagates out of the loop. -/
def processCity (api_key now : String) (http : String → HttpResult)
    (rows : List Record) (cidade : String) : Except PyErr (List Record) := do
  let fetched ← obter_dados_clima cidade api_key http
  match fetched.fst with
  | Option.some dados_raw =>
      if truthy dados_raw then do
        let dados_estruturados ← estruturar_dados dados_raw now
        let _u ← exibir_dados_formatados dados_estruturados
        inserir_dados_banco rows dados_estruturados
      else .ok rows
  | Option.none => .ok rows

/-- The whole loop of `main` over a city list. An exception in one iteration
aborts the loop (it is only caught by the handlers around the entire `try`
body); rows committed by earlier iterations persist. Returns the final rows
and the escaping exception, if any. -/
def processAll (api_key now : String) (http : String → HttpResult)
    (rows : List Record) : List String → List Record × Option PyErr
  | [] => (rows, Option.none)
  | c :: rest =>
      match processCity api_key now http rows c with
      | .ok rows' => processAll api_key now http rows' rest
      | .error e => (rows, Option.some e)

/-- Observable outcome of one run of `main`: the final database file state,
how many times `conn.close()` ran, and whether the `try` body completed
normally (reaching the final success prints) instead of being caught by one
of the `except` handlers. -/
structure MainOut where
  db : DbState
  closes : Nat
  normal : Bool

/-- `main`: load the key, open/create the database, loop over the cities,
query the recent rows, close. `conn.close()` (line 239) is the last statement
of the `try` body; the `finally` block only prints a separator, so a run
aborted by an exception after `criar_banco_dados` never closes the handle. -/
def mainRun (http : String → HttpResult) (now : String) (cityList : List String)
    (s0 : DbState) : MainOut :=
  match carregar_configuracoes with
  | .error _ => { db := s0, closes := 0, normal := false }
  | .ok api_key =>
      let s1 := criar_banco_dados s0
      match s1.table with
      | Option.none => { db := s1, closes := 0, normal := false }
      | Option.some (schema, rows0) =>
          match processAll api_key now http rows0 cityList with
          | (rows', Option.none) =>
              { db := ⟨Option.some (schema, rows')⟩, closes := 1, normal := true }
          | (rows', Option.some _) =>
              { db := ⟨Option.some (schema, rows')⟩, closes := 0, normal := false }

/-- The source path `payload[k]` when present: the top-level key of a JSON
object. -/
def srcPath1 (p : Py) (k : String) : Option Py :=
  match p with
  | .dict kvs => lookupKey kvs k
  | _ => Option.none

/-- The source path `payload[k1][k2]` when present. -/
def srcPath2 (p : Py) (k1 k2 : String) : Option Py :=
  match srcPath1 p k1 with
  | Option.some (.dict kvs) => lookupKey kvs k2
  | _ => Option.none

/-- The source path `payload['weather'][0]['description']` when present. -/
def srcPathDesc (p : Py) : Option Py :=
  match srcPath1 p "weather" with
  | Option.some (.list (.dict kvs :: _)) => lookupKey kvs "description"
  | _ => Option.none

/-- Whether an optional sub-payload, if present, is a JSON object. -/
def optDictOk : Option Py → Bool
  | Option.none => true
  | Option.some (.dict _) => true
  | Option.some _ => false

/-- Whether the `weather` entry, if present, is a non-empty array whose first
element is a JSON object. -/
def optWeatherOk : Option Py → Bool
  | Option.none => true
  | Option.some (.list (.dict _ :: _)) => true
  | Option.some _ => false

/-- The payload is a JSON object and every present nested key that
`estruturar_dados` dereferences has the shape the provider's schema gives it:
`sys`, `main`, `wind`, `clouds` are objects and `weather` is a non-empty
array of objects. -/
def wellShaped (p : Py) : Bool :=
  match p with
  | .dict kvs =>
      optDictOk (lookupKey kvs "sys") && optDictOk (lookupKey kvs "main") &&
      optDictOk (lookupKey kvs "wind") && optDictOk (lookupKey kvs "clouds") &&
      optWeatherOk (lookupKey kvs "weather")
  | _ => false

/-- A failed fetch in the sense of the spec: non-200 status, timeout, or
transport error. -/
def failedFetch : HttpResult → Prop
  | .response status _ => status ≠ 200
  | .timeout => True
  | .transportError _ => True

/-- A failed fetch whose non-200 response, if any, carries a JSON-object
body (the shape the provider actually sends for errors). -/
def failedFetchObjBody : HttpResult → Prop
  | .response status body => status ≠ 200 ∧ ∃ kvs, body = Py.dict kvs
  | .timeout => True
  | .transportError _ => True

/-- The concrete payload of the spec's normalization scenario. -/
def londonPayload : Py :=
  Py.dict [("name", Py.str "London"),
           ("sys", Py.dict [("country", Py.str "GB")]),
           ("main", Py.dict [("temp", Py.float 15), ("humidity", Py.int 80)]),
           ("weather", Py.list [Py.dict [("description", Py.str "light rain")]]),
           ("wind", Py.dict []),
           ("clouds", Py.dict []),
           ("dt", Py.int 1700000000)]

/-- The record that normalization produces on a well-shaped payload: each
field is the value at its source path, defaulting to `None` when absent
(`estruturar_wellShaped` below proves this characterization against
`estruturar_dados`). -/
def normRec (p : Py) (now : String) : Record :=
  { cidade := (srcPath1 p "name").getD Py.none,
    pais := (srcPath2 p "sys" "country").getD Py.none,
    temperatura := (srcPath2 p "main" "temp").getD Py.none,
    sensacao_termica := (srcPath2 p "main" "feels_like").getD Py.none,
    temp_minima := (srcPath2 p "main" "temp_min").getD Py.none,
    temp_maxima := (srcPath2 p "main" "temp_max").getD Py.none,
    pressao := (srcPath2 p "main" "pressure").getD Py.none,
    umidade := (srcPath2 p "main" "humidity").getD Py.none,
    descricao := (srcPathDesc p).getD Py.none,
    velocidade_vento := (srcPath2 p "wind" "speed").getD Py.none,
    nuvens := (srcPath2 p "clouds" "all").getD Py.none,
    data_hora := Py.str now,
    timestamp_api := (srcPath1 p "dt").getD Py.none }

/-- A record with the given city name and every other field null, used to
instantiate store lemmas on concrete rows. -/
def mkRec (name : String) : Record :=
  { cidade := Py.str name, pais := Py.none, temperatura := Py.none,
    sensacao_termica := Py.none, temp_minima := Py.none, temp_maxima := Py.none,
    pressao := Py.none, umidade := Py.none, descricao := Py.none,
    velocidade_vento := Py.none, nuvens := Py.none, data_hora := Py.none,
    timestamp_api := Py.none }

/-- A network in which every request yields HTTP 404 with the valid-JSON but
non-object body `[]`. -/
def badBodyHttp : String → HttpResult := fun _ => .response 404 (Py.list [])

/-- A network in which the request for London yields HTTP 404 with body `[]`
and every other request times out. -/
def londonBadHttp : String → HttpResult := fun url =>
  if url = buildUrl "London" api_key_const then .response 404 (Py.list [])
  else .timeout

/-- A network answering every request with HTTP 404 and the provider's error
body `{"message": "city not found"}`. -/
def notFoundHttp : String → HttpResult :=
  fun _ => .response 404 (Py.dict [("message", Py.str "city not found")])

/-- A network answering every request with HTTP 200 and the payload
`{"weather": []}` (truthy, but normalization raises `IndexError` on it). -/
def abortHttp : String → HttpResult :=
  fun _ => .response 200 (Py.dict [("weather", Py.list [])])

/-- A network answering every request with HTTP 200 and the empty JSON
object `{}` as payload. -/
def emptyPayloadHttp : String → HttpResult := fun _ => .response 200 (Py.dict [])

/-- A network answering every request with HTTP 200 and the spec's London
payload. -/
def londonHttp : String → HttpResult := fun _ => .response 200 londonPayload

/-- C8: the spec's concrete London payload normalizes to city "London",
country "GB", temperature 15.0, humidity 80, description "light rain",
null wind speed and cloud cover, provider timestamp 1700000000, and every
remaining non-timestamp field null (for every wall-clock string `now`). -/
theorem spec_c8_london_scenario (now : String) :
    estruturar_dados londonPayload now =
      .ok { cidade := Py.str "London", pais := Py.str "GB",
            temperatura := Py.float 15, sensacao_termica := Py.none,
            temp_minima := Py.none, temp_maxima := Py.none,
            pressao := Py.none, umidade := Py.int 80,
            descricao := Py.str "light rain", velocidade_vento := Py.none,
            nuvens := Py.none, data_hora := Py.str now,
            timestamp_api := Py.int 1700000000 } := rfl

/-- C10: the request URL is the fixed template with the raw city name and
credential substituted verbatim (no percent-encoding); the client's outcome
depends on the network only through that one URL; and the URL built for
"Sao Paulo" contains an unencoded space character. -/
theorem spec_c10_url_interpolation (cidade api_key : String)
    (http : String → HttpResult) :
    buildUrl cidade api_key =
      "https://api.openweathermap.org/data/2.5/weather?q=" ++ cidade ++
        "&appid=" ++ api_key ++ "&units=metric&lang=pt_br" ∧
    obter_dados_clima cidade api_key http =
      obter_dados_clima cidade api_key (fun _ => http (buildUrl cidade api_key)) ∧
    ' ' ∈ (buildUrl "Sao Paulo" api_key_const).data :=
  ⟨rfl, rfl, by decide⟩

/-- C7: `criar_banco_dados` is idempotent on every backing file state — the
second call is a no-op, the table exists afterwards, an existing table keeps
its schema and rows untouched, and a missing table is created empty with the
fixed `dados_clima` schema. -/
theorem spec_c7_open_idempotent (s : DbState) :
    criar_banco_dados (criar_banco_dados s) = criar_banco_dados s ∧
    (criar_banco_dados s).table.isSome = true ∧
    (∀ schema rows, s.table = Option.some (schema, rows) →
      criar_banco_dados s = s) ∧
    (s.table = Option.none →
      criar_banco_dados s = ⟨Option.some (dadosClimaSchema, [])⟩) := by
  obtain ⟨t⟩ := s
  cases t <;> simp [criar_banco_dados]

theorem optDictOk_cases (o : Option Py) (h : optDictOk o = true) :
    o = Option.none ∨ ∃ kvs, o = Option.some (Py.dict kvs) := by
  cases o with
  | none => exact .inl rfl
  | some v => cases v <;> first
      | exact .inr ⟨_, rfl⟩
      | simp [optDictOk] at h

theorem optWeatherOk_cases (o : Option Py) (h : optWeatherOk o = true) :
    o = Option.none ∨
      ∃ kvs rest, o = Option.some (Py.list (Py.dict kvs :: rest)) := by
  cases o with
  | none => exact .inl rfl
  | some v =>
      match v with
      | .list (.dict kvs :: rest) => exact .inr ⟨kvs, rest, rfl⟩
      | .none | .bool _ | .int _ | .float _ | .str _ | .dict _
      | .list [] => simp [optWeatherOk] at h
      | .list (.none :: _) | .list (.bool _ :: _) | .list (.int _ :: _)
      | .list (.float _ :: _) | .list (.str _ :: _) | .list (.list _ :: _) =>
          simp [optWeatherOk] at h

/-- A two-level defaulting chain on a well-shaped payload reduces to the
value at the two-key source path, defaulting to `None`. -/
theorem chain2_eq (kvs : List (String × Py)) (k1 k2 : String)
    (h : optDictOk (lookupKey kvs k1) = true) :
    getChain2 (Py.dict kvs) k1 k2 =
      .ok ((srcPath2 (Py.dict kvs) k1 k2).getD Py.none) := by
  have hg : pyGet (Py.dict kvs) k1 (Py.dict []) =
      .ok ((lookupKey kvs k1).getD (Py.dict [])) := rfl
  simp only [getChain2, srcPath2, srcPath1]
  rcases optDictOk_cases _ h with h1 | ⟨skvs, h1⟩ <;> rw [hg, h1] <;> rfl

/-- The `weather[0]['description']` defaulting chain on a well-shaped payload
reduces to the value at its source path, defaulting to `None`. -/
theorem chainDesc_eq (kvs : List (String × Py))
    (h : optWeatherOk (lookupKey kvs "weather") = true) :
    getDescChain (Py.dict kvs) =
      .ok ((srcPathDesc (Py.dict kvs)).getD Py.none) := by
  have hg : pyGet (Py.dict kvs) "weather" (Py.list [Py.dict []]) =
      .ok ((lookupKey kvs "weather").getD (Py.list [Py.dict []])) := rfl
  simp only [getDescChain, srcPathDesc, srcPath1]
  rcases optWeatherOk_cases _ h with h1 | ⟨wekvs, rest, h1⟩ <;> rw [hg, h1] <;> rfl

/-- On a well-shaped payload the normalizer succeeds and each field is the
value at its source path, defaulting to `None` when the path is absent. -/
theorem estruturar_wellShaped (p : Py) (now : String) (h : wellShaped p = true) :
    estruturar_dados p now = .ok (normRec p now) := by
  cases p <;> simp [wellShaped] at h
  case dict kvs =>
  obtain ⟨⟨⟨⟨hsys, hmain⟩, hwind⟩, hclouds⟩, hweather⟩ := h
  simp only [estruturar_dados, chain2_eq kvs "sys" "country" hsys,
    chain2_eq kvs "main" "temp" hmain, chain2_eq kvs "main" "feels_like" hmain,
    chain2_eq kvs "main" "temp_min" hmain, chain2_eq kvs "main" "temp_max" hmain,
    chain2_eq kvs "main" "pressure" hmain, chain2_eq kvs "main" "humidity" hmain,
    chainDesc_eq kvs hweather, chain2_eq kvs "wind" "speed" hwind,
    chain2_eq kvs "clouds" "all" hclouds]
  rfl

/-- C5: for every table state and every non-negative limit `N`, the
recent-records query returns `min N rowcount` rows, the `i`-th returned row
is the projection of the `i`-th newest inserted row (newest-insert-first by
primary key), a limit at least the row count returns all rows, the empty
table yields the empty sequence, and after inserting rows for A, B, C in
that order a limit of 2 yields [C, B] — never an error. -/
theorem spec_c5_recent_query (rows : List Record) (N : Int) (h : 0 ≤ N) :
    (consultar_dados_banco rows N).length = min N.toNat rows.length ∧
    (∀ i, i < min N.toNat rows.length →
      (consultar_dados_banco rows N)[i]? =
        (rows.map consultaProj)[rows.length - 1 - i]?) ∧
    ((rows.length : Int) ≤ N →
      consultar_dados_banco rows N = rows.reverse.map consultaProj) ∧
    consultar_dados_banco ([] : List Record) N = [] ∧
    (∀ a b c : Record,
      consultar_dados_banco [a, b, c] 2 = [consultaProj c, consultaProj b]) := by
  have hnl : ¬ N < 0 := not_lt.mpr h
  refine ⟨?_, ?_, ?_, ?_, ?_⟩
  · simp [consultar_dados_banco, hnl]
  · intro i hi
    have hiN : i < N.toNat := lt_of_lt_of_le hi (min_le_left _ _)
    have hil : i < rows.length := lt_of_lt_of_le hi (min_le_right _ _)
    simp only [consultar_dados_banco, hnl, if_false, List.getElem?_map,
      List.getElem?_take_of_lt hiN]
    rw [List.getElem?_reverse hil]
  · intro hle
    have h1 : rows.length ≤ N.toNat := (Int.le_toNat h).mpr hle
    have h2 : rows.reverse.length ≤ N.toNat := by simpa using h1
    simp [consultar_dados_banco, hnl, List.take_of_length_le h2]
  · simp [consultar_dados_banco]
  · intro a b c
    rfl

theorem spec_c5_recent_query_witness :
    consultar_dados_banco [mkRec "A", mkRec "B", mkRec "C"] 2 =
      [consultaProj (mkRec "C"), consultaProj (mkRec "B")] :=
  (spec_c5_recent_query [] 2 (by decide)).2.2.2.2 (mkRec "A") (mkRec "B") (mkRec "C")

/-- The parameterized INSERT succeeds exactly when all bound values are
driver-bindable and the bound `cidade` value is not `None`, and then appends
the one row at the end. -/
theorem inserir_ok_iff (rows rows' : List Record) (r : Record) :
    inserir_dados_banco rows r = .ok rows' ↔
      recordBindable r = true ∧ r.cidade ≠ Py.none ∧ rows' = rows ++ [r] := by
  cases hb : recordBindable r
  · simp [inserir_dados_banco, hb]
  · cases hr : r.cidade <;> simp [inserir_dados_banco, hb, hr, eq_comm]

/-- C9: the non-null invariant on `cidade` is schema-enforced — an insert
that succeeds implies the record's city is non-null and preserves the
all-rows-non-null invariant, a record with null city makes the insert raise
a storage error (`sqlite3.Error`: `sqlite3.ProgrammingError` when some bound
value is a list/dict, since binding precedes the constraint check, otherwise
`sqlite3.IntegrityError` from the NOT NULL constraint) without inserting a
row, and the normalizer itself happily produces a null-city record from a
payload lacking the top-level name. -/
theorem spec_c9_schema_not_null (rows : List Record) (r : Record)
    (hrows : ∀ x ∈ rows, x.cidade ≠ Py.none) :
    (∀ rows', inserir_dados_banco rows r = .ok rows' →
      r.cidade ≠ Py.none ∧ ∀ x ∈ rows', x.cidade ≠ Py.none) ∧
    (r.cidade = Py.none →
      ∃ e, inserir_dados_banco rows r = .error e ∧ isStorageErr e = true) ∧
    (∀ now, ∃ rec, estruturar_dados (Py.dict []) now = .ok rec ∧
      rec.cidade = Py.none ∧
      inserir_dados_banco rows rec = .error .integrityError) := by
  refine ⟨?_, ?_, ?_⟩
  · intro rows' heq
    obtain ⟨_hb, hcid, hrows'⟩ := (inserir_ok_iff rows rows' r).mp heq
    refine ⟨hcid, ?_⟩
    intro x hx
    rcases List.mem_append.mp (hrows' ▸ hx) with hx' | hx'
    · exact hrows x hx'
    · rw [List.mem_singleton.mp hx']
      exact hcid
  · intro hr
    cases hb : recordBindable r
    · exact ⟨.programmingError, by simp [inserir_dados_banco, hb], rfl⟩
    · exact ⟨.integrityError, by simp [inserir_dados_banco, hb, hr], rfl⟩
  · intro now
    exact ⟨_, rfl, rfl, rfl⟩

theorem spec_c9_schema_not_null_witness :
    ∃ e, inserir_dados_banco [] { mkRec "A" with cidade := Py.none } =
      .error e ∧ isStorageErr e = true :=
  (spec_c9_schema_not_null [] _ (by simp)).2.1 rfl

theorem spec_c7_open_idempotent_witness :
    criar_banco_dados ⟨Option.some (dadosClimaSchema, [mkRec "A"])⟩ =
      ⟨Option.some (dadosClimaSchema, [mkRec "A"])⟩ ∧
    criar_banco_dados ⟨Option.none⟩ = ⟨Option.some (dadosClimaSchema, [])⟩ :=
  ⟨(spec_c7_open_idempotent _).2.2.1 dadosClimaSchema [mkRec "A"] rfl,
   (spec_c7_open_idempotent _).2.2.2 rfl⟩

/-- C6 (amended): the weather client converts provider and transport
failures into an absent result plus console diagnostics — for every non-200
response whose body is a JSON object it reports the status code and the
provider's `message` field (falling back to "Erro desconhecido" when that
field is absent), and on timeout or any other transport failure it reports a
diagnostic — returning `None` in all these cases, never raising. (Over
non-object error bodies the claim is false: see the counterexample.) -/
theorem spec_c6_client_failure_absent (cidade api_key : String)
    (http : String → HttpResult) :
    (∀ status kvs,
      http (buildUrl cidade api_key) = .response status (Py.dict kvs) →
      status ≠ 200 →
      obter_dados_clima cidade api_key http =
        .ok (Option.none,
          ["Realizando requisição para a cidade: " ++ cidade ++ "...",
           "✗ Erro na requisição: " ++ toString status,
           "Mensagem: " ++
             pyToString ((lookupKey kvs "message").getD
               (Py.str "Erro desconhecido"))])) ∧
    (http (buildUrl cidade api_key) = .timeout →
      obter_dados_clima cidade api_key http =
        .ok (Option.none,
          ["Realizando requisição para a cidade: " ++ cidade ++ "...",
           "✗ Erro: Timeout na requisição"])) ∧
    (∀ m, http (buildUrl cidade api_key) = .transportError m →
      obter_dados_clima cidade api_key http =
        .ok (Option.none,
          ["Realizando requisição para a cidade: " ++ cidade ++ "...",
           "✗ Erro na requisição: " ++ toString m])) := by
  refine ⟨?_, ?_, ?_⟩
  · intro status kvs hresp hstatus
    simp [obter_dados_clima, hresp, hstatus, pyGet]
  · intro hresp
    simp [obter_dados_clima, hresp]
  · intro m hresp
    simp [obter_dados_clima, hresp]

theorem spec_c6_client_failure_absent_witness :
    obter_dados_clima "Atlantis" api_key_const notFoundHttp =
      .ok (Option.none,
        ["Realizando requisição para a cidade: Atlantis...",
         "✗ Erro na requisição: 404",
         "Mensagem: city not found"]) :=
  (spec_c6_client_failure_absent "Atlantis" api_key_const notFoundHttp).1
    404 [("message", Py.str "city not found")] rfl (by decide)

theorem spec_c6_client_failure_absent_counterexample :
    obter_dados_clima "Atlantis" api_key_const badBodyHttp =
      .error .attributeError := rfl

/-- When the client returns an absent result, the loop body for that city
leaves the table untouched. -/
theorem processCity_fetch_none (api_key now : String)
    (http : String → HttpResult) (rows : List Record) (c : String)
    (logs : List String)
    (h : obter_dados_clima c api_key http = .ok (Option.none, logs)) :
    processCity api_key now http rows c = .ok rows := by
  simp only [processCity, h]
  rfl

/-- Monadic sequencing after a successful step runs the continuation. -/
theorem bind_ok_eq {α β : Type} (a : α) (f : α → Except PyErr β) :
    (do let x ← (Except.ok a : Except PyErr α); f x) = f a := rfl

/-- When the client returns a truthy payload, the loop body for that city is
the structure/display/insert sequence on that payload. -/
theorem processCity_fetch_some (api_key now : String)
    (http : String → HttpResult) (rows : List Record) (c : String)
    (body : Py) (logs : List String)
    (h : obter_dados_clima c api_key http = .ok (Option.some body, logs))
    (ht : truthy body = true) :
    processCity api_key now http rows c = (do
      let dados ← estruturar_dados body now
      let _u ← exibir_dados_formatados dados
      inserir_dados_banco rows dados) := by
  simp only [processCity, h, bind_ok_eq]
  show (if truthy body = true then _ else _) = _
  rw [if_pos ht]

/-- C3 (amended): for every city in the configured list, a failed fetch —
timeout, transport error, or non-200 status whose error body is a JSON
object — writes zero rows for that city and the loop proceeds to the next
city. (For a non-200 response with a non-object body the claim is false:
the run aborts; see the counterexample.) -/
theorem spec_c3_failed_fetch_skips (api_key now : String)
    (http : String → HttpResult) (rows : List Record) (c : String)
    (rest : List String) (hc : c ∈ cidades)
    (hf : failedFetchObjBody (http (buildUrl c api_key))) :
    processCity api_key now http rows c = .ok rows ∧
    processAll api_key now http rows (c :: rest) =
      processAll api_key now http rows rest := by
  have h1 : processCity api_key now http rows c = .ok rows := by
    cases hresp : http (buildUrl c api_key) with
    | response status body =>
        rw [hresp] at hf
        obtain ⟨hstatus, kvs, hbody⟩ := hf
        subst hbody
        have hob : obter_dados_clima c api_key http =
            .ok (Option.none,
              ["Realizando requisição para a cidade: " ++ c ++ "...",
               "✗ Erro na requisição: " ++ toString status,
               "Mensagem: " ++ pyToString ((lookupKey kvs "message").getD
                 (Py.str "Erro desconhecido"))]) := by
          simp [obter_dados_clima, hresp, hstatus, pyGet]
        exact processCity_fetch_none api_key now http rows c _ hob
    | timeout =>
        have hob : obter_dados_clima c api_key http =
            .ok (Option.none,
              ["Realizando requisição para a cidade: " ++ c ++ "...",
               "✗ Erro: Timeout na requisição"]) := by
          simp [obter_dados_clima, hresp]
        exact processCity_fetch_none api_key now http rows c _ hob
    | transportError m =>
        have hob : obter_dados_clima c api_key http =
            .ok (Option.none,
              ["Realizando requisição para a cidade: " ++ c ++ "...",
               "✗ Erro na requisição: " ++ toString m]) := by
          simp [obter_dados_clima, hresp]
        exact processCity_fetch_none api_key now http rows c _ hob
  exact ⟨h1, by simp [processAll, h1]⟩

theorem spec_c3_failed_fetch_skips_witness :
    processCity api_key_const "2024-01-01 00:00:00" (fun _ => .timeout) []
      "London" = .ok [] ∧
    processAll api_key_const "2024-01-01 00:00:00" (fun _ => .timeout) []
      ["London"] =
      processAll api_key_const "2024-01-01 00:00:00" (fun _ => .timeout) [] [] :=
  spec_c3_failed_fetch_skips api_key_const "2024-01-01 00:00:00"
    (fun _ => .timeout) [] "London" [] (by simp [cidades]) trivial

theorem spec_c3_failed_fetch_skips_counterexample :
    failedFetch (londonBadHttp (buildUrl "London" api_key_const)) ∧
    processAll api_key_const "2024-01-01 00:00:00" londonBadHttp []
      ["London", "Paris"] = ([], Option.some PyErr.attributeError) ∧
    processAll api_key_const "2024-01-01 00:00:00" londonBadHttp []
      ["Paris"] = ([], Option.none) :=
  ⟨by
    have h : londonBadHttp (buildUrl "London" api_key_const) =
        .response 404 (Py.list []) := by
      simp [londonBadHttp]
    rw [h]
    exact (by decide : (404 : Nat) ≠ 200),
   rfl, rfl⟩


/-- C1 (amended): for every successful fetch whose payload is a truthy,
well-shaped JSON object carrying a non-null top-level `name` and a string
`weather[0].description`, and whose extracted field values are all
SQLite-bindable scalars (no array- or object-valued leaves), the loop body
appends exactly one row for that city, and the row's `cidade` is non-null and
equal to the payload's `name` value. (For a successful fetch returning the
falsy payload `{}` the claim as stated is false — no row is appended; see
the counterexample.) -/
theorem spec_c1_success_appends_one (api_key now : String)
    (http : String → HttpResult) (rows : List Record) (c : String)
    (body v : Py)
    (hresp : http (buildUrl c api_key) = .response 200 body)
    (htruthy : truthy body = true)
    (hshape : wellShaped body = true)
    (hname : srcPath1 body "name" = Option.some v)
    (hv : v ≠ Py.none)
    (hdesc : ∃ s, srcPathDesc body = Option.some (Py.str s))
    (hbind : recordBindable (normRec body now) = true) :
    processCity api_key now http rows c = .ok (rows ++ [normRec body now]) ∧
    (normRec body now).cidade = v ∧
    (normRec body now).cidade ≠ Py.none := by
  obtain ⟨s, hs⟩ := hdesc
  have hob : obter_dados_clima c api_key http =
      .ok (Option.some body,
        ["Realizando requisição para a cidade: " ++ c ++ "...",
         "✓ Dados obtidos com sucesso! (Status: " ++ toString (200 : Nat) ++ ")"]) := by
    simp [obter_dados_clima, hresp]
  have hcid : (normRec body now).cidade = v := by simp [normRec, hname]
  have hstep := processCity_fetch_some api_key now http rows c body _ hob htruthy
  refine ⟨?_, hcid, ?_⟩
  · rw [hstep, estruturar_wellShaped body now hshape, bind_ok_eq]
    have hd : (normRec body now).descricao = Py.str s := by simp [normRec, hs]
    have hex : exibir_dados_formatados (normRec body now) = .ok () := by
      simp [exibir_dados_formatados, hd]
    rw [hex, bind_ok_eq]
    exact (inserir_ok_iff rows (rows ++ [normRec body now])
      (normRec body now)).mpr ⟨hbind, by rw [hcid]; exact hv, rfl⟩
  · rw [hcid]
    exact hv

theorem spec_c1_success_appends_one_witness :
    processCity api_key_const "2024-01-01 00:00:00" londonHttp [] "London" =
      .ok [normRec londonPayload "2024-01-01 00:00:00"] ∧
    (normRec londonPayload "2024-01-01 00:00:00").cidade = Py.str "London" ∧
    (normRec londonPayload "2024-01-01 00:00:00").cidade ≠ Py.none :=
  spec_c1_success_appends_one api_key_const "2024-01-01 00:00:00" londonHttp []
    "London" londonPayload (Py.str "London") rfl rfl rfl rfl
    (fun h => Py.noConfusion h) ⟨"light rain", rfl⟩ rfl

theorem spec_c1_success_appends_one_counterexample :
    obter_dados_clima "London" api_key_const emptyPayloadHttp =
      .ok (Option.some (Py.dict []),
        ["Realizando requisição para a cidade: London...",
         "✓ Dados obtidos com sucesso! (Status: 200)"]) ∧
    processCity api_key_const "2024-01-01 00:00:00" emptyPayloadHttp []
      "London" = .ok [] := ⟨rfl, rfl⟩

/-- C4 (amended): the storage handle opened by `criar_banco_dados` is closed
exactly once on the normal-completion path of `main`; on every run that an
exception aborts after the open (configuration, storage, or unexpected
error), the program closes it zero times — the `finally` block only prints.
(The claim that it is closed exactly once on every exit path is false: see
the counterexample.) -/
theorem spec_c4_close_on_normal_only (http : String → HttpResult)
    (now : String) (cityList : List String) (s0 : DbState) :
    ((mainRun http now cityList s0).normal = true →
      (mainRun http now cityList s0).closes = 1) ∧
    ((mainRun http now cityList s0).normal = false →
      (mainRun http now cityList s0).closes = 0) := by
  have hc : carregar_configuracoes = .ok api_key_const := rfl
  simp only [mainRun, hc]
  rcases hstate : (criar_banco_dados s0).table with _ | ⟨schema, rows0⟩
  · simp
  · rcases hall : processAll api_key_const now http rows0 cityList
      with ⟨rows', e⟩
    cases e <;> simp [hall]

theorem spec_c4_close_on_normal_only_witness :
    (mainRun (fun _ => .timeout) "2024-01-01 00:00:00" cidades
      ⟨Option.none⟩).closes = 1 :=
  (spec_c4_close_on_normal_only (fun _ => .timeout) "2024-01-01 00:00:00"
    cidades ⟨Option.none⟩).1 rfl

theorem spec_c4_close_on_normal_only_counterexample :
    (mainRun abortHttp "2024-01-01 00:00:00" ["London"]
      ⟨Option.none⟩).normal = false ∧
    (mainRun abortHttp "2024-01-01 00:00:00" ["London"]
      ⟨Option.none⟩).closes = 0 := ⟨rfl, rfl⟩
